import Mathlib

/-!
Verification of the AirtableManager record façade (src/unnamed/part_000,
a TypeScript class wrapping the Airtable SDK) together with its type
declarations (src/unnamed, second document).

Modelling choices, each traced to the source:
* JavaScript scalar values that flow into `buildFilterFormula` are the
  inductive `JSValue`; `JSValue.other` carries the template-literal
  stringification of a value that is neither string, number nor boolean.
* JavaScript truthiness of an optional string / number is `jsOrStr` /
  `jsOrNat` (`x || dflt`): `undefined`, the empty string and `0` select
  the default, exactly as `||` does in the source.
* A remote failure is `AirtableError` (optional `statusCode`, optional
  `message`), matching the duck-typed `error.statusCode === 404` and
  `error.message || fallback` accesses in every catch block.
* Each remote SDK call the façade awaits is a function parameter
  returning `Except AirtableError _`; `select` streams a list of pages,
  and the `eachPage` callback discipline is `eachPageRun` (the callback
  either always calls `fetchNextPage`, as in `getAll`/`count`, or never
  does, as in `getPaginated`).
* Bulk operations additionally return the trace of batches handed to the
  remote call, in call order, so that chunking claims are statable.
-/

/-- JavaScript values appearing as filter values (`Record<string, any>`).
`other` carries the string the template literal would produce. -/
inductive JSValue where
  | undef : JSValue
  | null : JSValue
  | str (s : String) : JSValue
  | num (n : Int) : JSValue
  | bool (b : Bool) : JSValue
  | other (stringified : String) : JSValue
deriving DecidableEq, Repr

/-- Source `m || dflt` for an optional string: `undefined` and `""` are falsy. -/
def jsOrStr (m : Option String) (dflt : String) : String :=
  match m with
  | some s => if s = "" then dflt else s
  | none => dflt

/-- Source `m || dflt` for an optional number: `undefined` and `0` are falsy. -/
def jsOrNat (m : Option Nat) (dflt : Nat) : Nat :=
  match m with
  | some n => if n = 0 then dflt else n
  | none => dflt

/-- Truthiness of an optional string (`if (options.filterByFormula)`):
present and non-empty. -/
def jsTruthyStr (m : Option String) : Bool :=
  match m with
  | some s => !(s = "")
  | none => false

/-- The error object every catch block inspects: `statusCode` and
`message` may each be absent. -/
structure AirtableError where
  statusCode : Option Nat
  message : Option String
deriving DecidableEq, Repr

/-- A record as delivered by the Airtable SDK: `id`, `fields`, and the
`_rawJson?.createdTime` the formatter reads (absent when `_rawJson` is
missing or has no `createdTime`). -/
structure RemoteRecord where
  id : String
  fields : List (String × JSValue)
  rawCreatedTime : Option String
deriving DecidableEq, Repr

/-- Source `AirtableRecord` from the type declarations. -/
structure AirtableRecord where
  id : String
  fields : List (String × JSValue)
  createdTime : Option String
deriving DecidableEq, Repr

/-- Source `AirtableConfig` from the type declarations. -/
structure AirtableConfig where
  apiKey : String
  baseId : String
  tableName : String
deriving DecidableEq, Repr

/-- One entry of the `sort` option of `getAll`. -/
structure SortSpec where
  field : String
  direction : String
deriving DecidableEq, Repr

namespace AirtableManager

/-- Source `formatRecord` (private helper). -/
def formatRecord (record : RemoteRecord) : AirtableRecord :=
  { id := record.id, fields := record.fields,
    createdTime := record.rawCreatedTime }

/-- The body of the `Object.entries(filters).forEach` loop of
`buildFilterFormula`: the condition pushed for one `[field, value]`
entry, or `none` when the entry is skipped.  The guard is
`value !== undefined && value !== null && value !== ""`, then the
`typeof` chain picks the predicate shape. -/
def conditionFor (field : String) (value : JSValue) : Option String :=
  if value = JSValue.undef ∨ value = JSValue.null ∨ value = JSValue.str "" then
    none
  else
    match value with
    | JSValue.str s =>
        some ("SEARCH(\"" ++ s ++ "\", \x7b" ++ field ++ "\x7d) > 0")
    | JSValue.num n =>
        some ("\x7b" ++ field ++ "\x7d = " ++ toString n)
    | JSValue.bool b =>
        some ("\x7b" ++ field ++ "\x7d = " ++ (if b then "TRUE()" else "FALSE()"))
    | _ =>
        some ("\x7b" ++ field ++ "\x7d = \"" ++
          (match value with
           | JSValue.other s => s
           | JSValue.undef => "undefined"
           | JSValue.null => "null"
           | _ => "") ++ "\"")

/-- Source `buildFilterFormula` (private): a fold pushing each entry's condition,
then the `length === 0` / `length === 1` / `AND(...)` cases. -/
def buildFilterFormula (filters : List (String × JSValue)) : String :=
  let conditions :=
    filters.foldl
      (fun acc fv =>
        match conditionFor fv.1 fv.2 with
        | some c => acc ++ [c]
        | none => acc)
      []
  match conditions with
  | [] => ""
  | [c] => c
  | cs => "AND(" ++ String.intercalate ", " cs ++ ")"

/-- Modelled from the spec (reference definition for the refinement claim
about `buildFilterFormula`): one entry's predicate, following the spec's
wording — null/undefined/empty-string skipped; a string value yields the
substring-match predicate; a number and a boolean yield equality
predicates; any other value yields a quoted stringified equality. -/
def specPredicate (field : String) : JSValue → Option String
  | JSValue.null => none
  | JSValue.undef => none
  | JSValue.str s =>
      if s = "" then none
      else some ("SEARCH(\"" ++ s ++ "\", \x7b" ++ field ++ "\x7d) > 0")
  | JSValue.num n => some ("\x7b" ++ field ++ "\x7d = " ++ toString n)
  | JSValue.bool b =>
      some ("\x7b" ++ field ++ "\x7d = " ++ (if b then "TRUE()" else "FALSE()"))
  | JSValue.other s => some ("\x7b" ++ field ++ "\x7d = \"" ++ s ++ "\"")

/-- Modelled from the spec (reference definition): zero qualifying
entries give the empty string, one gives its predicate unwrapped, two or
more give `AND(p1, p2, ...)` in entry order. -/
def buildFilterFormulaSpec (filters : List (String × JSValue)) : String :=
  match filters.filterMap (fun fv => specPredicate fv.1 fv.2) with
  | [] => ""
  | [p] => p
  | ps => "AND(" ++ String.intercalate ", " ps ++ ")"

end AirtableManager

/-- Options of a `select` call as the façade assembles them.  `none`
means the key is not set on the options object. -/
structure SelectOptions where
  maxRecords : Option Nat
  view : String
  sort : Option (List SortSpec)
  filterByFormula : Option String
  offset : Option String
  emptyFields : Bool
deriving DecidableEq, Repr

/-- Source `GetAllRecordsOptions` from the type declarations (all keys
optional). -/
structure GetAllRecordsOptions where
  maxRecords : Option Nat
  view : Option String
  sort : Option (List SortSpec)
  filterByFormula : Option String
deriving DecidableEq, Repr

/-- Source `SearchOptions` from the type declarations. -/
structure SearchOptions where
  filters : List (String × JSValue)
  maxRecords : Option Nat
  view : Option String
deriving DecidableEq, Repr

/-- Source `CreateRecordInput` from the type declarations. -/
structure CreateRecordInput where
  fields : List (String × JSValue)
deriving DecidableEq, Repr

/-- Source `UpdateRecordInput` from the type declarations. -/
structure UpdateRecordInput where
  id : String
  fields : List (String × JSValue)
deriving DecidableEq, Repr

/-- Source `CreateRecordResponse` / `GetRecordByIdResponse` /
`UpdateRecordResponse` from the type declarations (identical shapes). -/
structure SingleRecordResponse where
  success : Bool
  data : Option AirtableRecord
  error : Option String
deriving DecidableEq, Repr

/-- Source `GetAllRecordsResponse` / `SearchResponse` / `BulkCreateResponse` /
`BulkUpdateResponse` from the type declarations (identical shapes). -/
structure RecordListResponse where
  success : Bool
  data : Option (List AirtableRecord)
  count : Option Nat
  error : Option String
deriving DecidableEq, Repr

/-- Source `DeleteRecordResponse` from the type declarations. -/
structure DeleteRecordResponse where
  success : Bool
  message : Option String
  error : Option String
deriving DecidableEq, Repr

/-- Source `BulkDeleteResponse` from the type declarations. -/
structure BulkDeleteResponse where
  success : Bool
  deletedCount : Option Nat
  message : Option String
  error : Option String
deriving DecidableEq, Repr

/-- The inline response type of `getPaginated`. -/
structure PaginatedResponse where
  success : Bool
  data : Option (List AirtableRecord)
  nextOffset : Option String
  error : Option String
deriving DecidableEq, Repr

/-- The inline response type of `count`. -/
structure CountResponse where
  success : Bool
  count : Option Nat
  error : Option String
deriving DecidableEq, Repr

/-- The inline response type of `exists`. -/
structure ExistsResponse where
  success : Bool
  exists? : Option Bool
  error : Option String
deriving DecidableEq, Repr

namespace AirtableManager

/-- The `eachPage` discipline: the SDK feeds pages one at a time; after
each page the callback either calls `fetchNextPage` (`next page = true`)
or returns without doing so, which ends the stream after that page.
Returns the pages the callback processed, in order. -/
def eachPageRun (fetchNext : List RemoteRecord → Bool) :
    List (List RemoteRecord) → List (List RemoteRecord)
  | [] => []
  | p :: ps => p :: (if fetchNext p then eachPageRun fetchNext ps else [])

/-- Source `create`: wraps the input in a one-element array; the SDK returns
one record per input, and the façade formats `records[0]`. -/
def create (createRemote : CreateRecordInput → Except AirtableError RemoteRecord)
    (input : CreateRecordInput) : SingleRecordResponse :=
  match createRemote input with
  | Except.ok record =>
      { success := true, data := some (formatRecord record), error := none }
  | Except.error e =>
      { success := false, data := none,
        error := some (jsOrStr e.message "Failed to create record") }

/-- The `selectOptions` object `getAll` assembles: `maxRecords` and
`view` default by `||`-falsiness; `sort` and `filterByFormula` are set
only when truthy (any array is truthy; a string only when non-empty). -/
def getAllSelectOptions (options : GetAllRecordsOptions) : SelectOptions :=
  { maxRecords := some (jsOrNat options.maxRecords 100),
    view := jsOrStr options.view "Grid view",
    sort := options.sort,
    filterByFormula :=
      if jsTruthyStr options.filterByFormula then options.filterByFormula
      else none,
    offset := none,
    emptyFields := false }

/-- Source `getAll`: selects with the assembled options, pushes every page's
records (the callback always calls `fetchNextPage`), and answers with
the concatenated list and its length. -/
def getAll (select : SelectOptions → Except AirtableError (List (List RemoteRecord)))
    (options : GetAllRecordsOptions) : RecordListResponse :=
  match select (getAllSelectOptions options) with
  | Except.ok pages =>
      let records := (eachPageRun (fun _ => true) pages).flatten.map formatRecord
      { success := true, data := some records, count := some records.length,
        error := none }
  | Except.error e =>
      { success := false, data := none, count := none,
        error := some (jsOrStr e.message "Failed to fetch records") }

/-- Source `getById`: one `find`; a 404 is normalized to "Record not found". -/
def getById (find : String → Except AirtableError RemoteRecord)
    (id : String) : SingleRecordResponse :=
  match find id with
  | Except.ok record =>
      { success := true, data := some (formatRecord record), error := none }
  | Except.error e =>
      { success := false, data := none,
        error := some (if e.statusCode = some 404 then "Record not found"
          else jsOrStr e.message "Failed to fetch record") }

/-- Source `search`: builds the filter formula from the filters and delegates
to `getAll` (its own catch is unreachable: the builder is total and
`getAll` never throws). -/
def search (select : SelectOptions → Except AirtableError (List (List RemoteRecord)))
    (options : SearchOptions) : RecordListResponse :=
  getAll select
    { filterByFormula := some (buildFilterFormula options.filters),
      maxRecords := options.maxRecords,
      view := options.view,
      sort := none }

/-- Source `update`: wraps `{id, fields}` in a one-element array; the SDK
returns one record per input and the façade formats `records[0]`; a 404
is normalized to "Record not found". -/
def update (updateRemote : UpdateRecordInput → Except AirtableError RemoteRecord)
    (input : UpdateRecordInput) : SingleRecordResponse :=
  match updateRemote input with
  | Except.ok record =>
      { success := true, data := some (formatRecord record), error := none }
  | Except.error e =>
      { success := false, data := none,
        error := some (if e.statusCode = some 404 then "Record not found"
          else jsOrStr e.message "Failed to update record") }

/-- Source `delete`: one `destroy([id])` whose result is discarded; a 404 is
normalized to "Record not found". -/
def delete (destroyOne : String → Except AirtableError Unit)
    (id : String) : DeleteRecordResponse :=
  match destroyOne id with
  | Except.ok _ =>
      { success := true, message := some "Record deleted successfully",
        error := none }
  | Except.error e =>
      { success := false, message := none,
        error := some (if e.statusCode = some 404 then "Record not found"
          else jsOrStr e.message "Failed to delete record") }

/-- The batching loop shared by the bulk operations:
`for (let i = 0; i < xs.length; i += 10) xs.slice(i, i + 10)`. -/
def chunkBatches : List α → List (List α)
  | [] => []
  | x :: xs => ((x :: xs).take 10) :: chunkBatches ((x :: xs).drop 10)
termination_by l => l.length
decreasing_by simp [List.length_drop]; omega

/-- The sequential awaited loop of `bulkCreate`/`bulkUpdate`: each batch
is handed to the remote call; its records are formatted and appended; a
failing batch aborts the loop and the whole operation.  Also returns the
batches actually sent, in order. -/
def runBatches (call : List β → Except AirtableError (List RemoteRecord)) :
    List (List β) →
      Except AirtableError (List AirtableRecord) × List (List β)
  | [] => (Except.ok [], [])
  | b :: bs =>
    match call b with
    | Except.error e => (Except.error e, [b])
    | Except.ok records =>
        let rest := runBatches call bs
        (rest.1.map (fun tail => records.map formatRecord ++ tail),
         b :: rest.2)

/-- The sequential awaited loop of `bulkDelete`: the destroy result is
discarded, and `deletedCount += batch.length` accumulates input chunk
sizes.  Also returns the batches actually sent, in order. -/
def runDeleteBatches {δ : Type} (destroy : List String → Except AirtableError δ) :
    List (List String) → Except AirtableError Nat × List (List String)
  | [] => (Except.ok 0, [])
  | b :: bs =>
    match destroy b with
    | Except.error e => (Except.error e, [b])
    | Except.ok _ =>
        let rest := runDeleteBatches destroy bs
        (rest.1.map (fun n => b.length + n), b :: rest.2)

/-- Source `bulkCreate`: chunks of at most 10 (the commented Airtable limit),
one remote create per chunk, results concatenated; the second component
is the trace of remote calls issued. -/
def bulkCreate (createRemote : List CreateRecordInput → Except AirtableError (List RemoteRecord))
    (records : List CreateRecordInput) :
    RecordListResponse × List (List CreateRecordInput) :=
  let r := runBatches createRemote (chunkBatches records)
  match r.1 with
  | Except.ok results =>
      ({ success := true, data := some results, count := some results.length,
         error := none }, r.2)
  | Except.error e =>
      ({ success := false, data := none, count := none,
         error := some (jsOrStr e.message "Bulk create failed") }, r.2)

/-- Source `bulkUpdate`: the same chunking and sequencing as `bulkCreate`. -/
def bulkUpdate (updateRemote : List UpdateRecordInput → Except AirtableError (List RemoteRecord))
    (records : List UpdateRecordInput) :
    RecordListResponse × List (List UpdateRecordInput) :=
  let r := runBatches updateRemote (chunkBatches records)
  match r.1 with
  | Except.ok results =>
      ({ success := true, data := some results, count := some results.length,
         error := none }, r.2)
  | Except.error e =>
      ({ success := false, data := none, count := none,
         error := some (jsOrStr e.message "Bulk update failed") }, r.2)

/-- Source `bulkDelete`: the same chunking; the count and the success message
come from the accumulated input chunk sizes. -/
def bulkDelete {δ : Type} (destroy : List String → Except AirtableError δ)
    (ids : List String) : BulkDeleteResponse × List (List String) :=
  let r := runDeleteBatches destroy (chunkBatches ids)
  match r.1 with
  | Except.ok deletedCount =>
      ({ success := true, deletedCount := some deletedCount,
         message := some (toString deletedCount ++ " records deleted successfully"),
         error := none }, r.2)
  | Except.error e =>
      ({ success := false, deletedCount := none, message := none,
         error := some (jsOrStr e.message "Bulk delete failed") }, r.2)

/-- The `selectOptions` object `getPaginated` assembles: `maxRecords` is
the page size, the view is fixed, and the offset is set only when
truthy. -/
def paginatedSelectOptions (pageSize : Nat) (offset : Option String) : SelectOptions :=
  { maxRecords := some pageSize,
    view := "Grid view",
    sort := none,
    filterByFormula := none,
    offset := if jsTruthyStr offset then offset else none,
    emptyFields := false }

/-- The assignment the `getPaginated` callback performs on each
processed page: when the page is exactly full, `nextOffset` becomes the
last record's id, otherwise the previous value is kept. -/
def nextOffsetOf (pageSize : Nat) (pages : List (List RemoteRecord)) : Option String :=
  pages.foldl
    (fun acc p =>
      if p.length = pageSize then (p.getLast?).map RemoteRecord.id else acc)
    none

/-- Source `getPaginated`: one select capped at `pageSize`; the callback never
calls `fetchNextPage`, so only the first delivered page is processed;
`nextOffset` is emitted only when that page is exactly full. -/
def getPaginated (select : SelectOptions → Except AirtableError (List (List RemoteRecord)))
    (pageSize : Nat) (offset : Option String) : PaginatedResponse :=
  match select (paginatedSelectOptions pageSize offset) with
  | Except.ok pages =>
      let processed := eachPageRun (fun _ => false) pages
      { success := true,
        data := some (processed.flatten.map formatRecord),
        nextOffset := nextOffsetOf pageSize processed,
        error := none }
  | Except.error e =>
      { success := false, data := none, nextOffset := none,
        error := some (jsOrStr e.message "Failed to fetch paginated records") }

/-- The `selectOptions` object `count` assembles: no record cap, empty
`fields` (ids only), filter only when truthy. -/
def countSelectOptions (filterByFormula : Option String) : SelectOptions :=
  { maxRecords := none,
    view := "Grid view",
    sort := none,
    filterByFormula :=
      if jsTruthyStr filterByFormula then filterByFormula else none,
    offset := none,
    emptyFields := true }

/-- Source `count`: pages through everything (the callback always calls
`fetchNextPage`), summing page lengths. -/
def countRecords (select : SelectOptions → Except AirtableError (List (List RemoteRecord)))
    (filterByFormula : Option String) : CountResponse :=
  match select (countSelectOptions filterByFormula) with
  | Except.ok pages =>
      { success := true,
        count := some ((eachPageRun (fun _ => true) pages).flatten.length),
        error := none }
  | Except.error e =>
      { success := false, count := none,
        error := some (jsOrStr e.message "Failed to count records") }

/-- Source `exists`: a single `find`; a 404 is a successful negative check,
any other failure is an operational error. -/
def existsRecord (find : String → Except AirtableError RemoteRecord)
    (id : String) : ExistsResponse :=
  match find id with
  | Except.ok _ => { success := true, exists? := some true, error := none }
  | Except.error e =>
      if e.statusCode = some 404 then
        { success := true, exists? := some false, error := none }
      else
        { success := false, exists? := none,
          error := some (jsOrStr e.message "Failed to check record existence") }

/-- The mutable state of an `AirtableManager` instance: its `config`
object, the base the constructor bound, and the table name the current
`this.table` reference was obtained from. -/
structure ManagerState where
  config : AirtableConfig
  boundBaseId : String
  boundTable : String
deriving DecidableEq, Repr

/-- The constructor: stores the config and binds `base(baseId)` and
`base(tableName)`. -/
def mkManager (apiKey baseId tableName : String) : ManagerState :=
  { config := { apiKey := apiKey, baseId := baseId, tableName := tableName },
    boundBaseId := baseId,
    boundTable := tableName }

/-- Source `getConfig`: a copy of the config object. -/
def getConfig (s : ManagerState) : AirtableConfig := s.config

/-- Source `switchTable`: rewrites `config.tableName` and rebinds `this.table`
within the same base; nothing else is touched and no remote call is
made. -/
def switchTable (s : ManagerState) (tableName : String) : ManagerState :=
  { config := { apiKey := s.config.apiKey, baseId := s.config.baseId,
                tableName := tableName },
    boundBaseId := s.boundBaseId,
    boundTable := tableName }

/-- The discriminated-envelope invariant: a success envelope carries a
payload and no error; a failure envelope carries an error and no
payload. -/
def envelopeOk {α : Type} (success : Bool) (payload : Option α)
    (error : Option String) : Prop :=
  (success = true ∧ payload.isSome = true ∧ error = none) ∨
  (success = false ∧ payload = none ∧ error.isSome = true)

end AirtableManager

namespace AirtableManager

theorem foldl_push_eq_filterMap (f : α → Option String) (l : List α)
    (acc : List String) :
    l.foldl
      (fun acc x =>
        match f x with
        | some c => acc ++ [c]
        | none => acc)
      acc = acc ++ l.filterMap f := by
  induction l generalizing acc with
  | nil => simp
  | cons x xs ih => cases h : f x <;> simp [h, ih]

theorem conditionFor_eq_specPredicate (field : String) (v : JSValue) :
    conditionFor field v = specPredicate field v := by
  cases v <;> simp [conditionFor, specPredicate]

/-- C1: for every field-to-value mapping, `buildFilterFormula` agrees
with the spec's reference definition: absent (null/undefined/empty)
values are skipped, each remaining entry yields its type-directed
predicate, and the results are unwrapped when single and AND-joined in
entry order when several. -/
theorem buildFilterFormula_eq_spec (filters : List (String × JSValue)) :
    buildFilterFormula filters = buildFilterFormulaSpec filters := by
  unfold buildFilterFormula buildFilterFormulaSpec
  rw [foldl_push_eq_filterMap (fun fv => conditionFor fv.1 fv.2) filters []]
  simp [conditionFor_eq_specPredicate]

/-- C8: `switchTable` changes only the active table: the reported config
keeps the constructor's apiKey and baseId, the table name becomes the
new one, the bound base is untouched, and the table binding is repointed
at the new name. -/
theorem switchTable_frame (apiKey baseId tableName newName : String)
    (s : ManagerState) :
    getConfig (switchTable (mkManager apiKey baseId tableName) newName)
      = { apiKey := apiKey, baseId := baseId, tableName := newName } ∧
    (switchTable s newName).config.apiKey = s.config.apiKey ∧
    (switchTable s newName).config.baseId = s.config.baseId ∧
    (switchTable s newName).config.tableName = newName ∧
    (switchTable s newName).boundBaseId = s.boundBaseId ∧
    (switchTable s newName).boundTable = newName :=
  ⟨rfl, rfl, rfl, rfl, rfl, rfl⟩

/-- C9: `getAll` substitutes its defaults by JavaScript falsiness: a
supplied `maxRecords` of 0 becomes 100 and a supplied view of `""`
becomes "Grid view", indistinguishably from omitting the options. -/
theorem getAll_default_by_falsiness
    (select : SelectOptions → Except AirtableError (List (List RemoteRecord)))
    (sort : Option (List SortSpec)) (f : Option String) :
    (getAllSelectOptions
      { maxRecords := some 0, view := some "", sort := sort,
        filterByFormula := f }).maxRecords = some 100 ∧
    (getAllSelectOptions
      { maxRecords := some 0, view := some "", sort := sort,
        filterByFormula := f }).view = "Grid view" ∧
    getAllSelectOptions
        { maxRecords := some 0, view := some "", sort := sort,
          filterByFormula := f }
      = getAllSelectOptions
        { maxRecords := none, view := none, sort := sort,
          filterByFormula := f } ∧
    getAll select
        { maxRecords := some 0, view := some "", sort := sort,
          filterByFormula := f }
      = getAll select
        { maxRecords := none, view := none, sort := sort,
          filterByFormula := f } :=
  ⟨rfl, rfl, rfl, rfl⟩

/-- C3: when the remote reports a 404, `getById`, `update` and `delete`
each return the failure envelope whose error is exactly the normalized
"Record not found"; on any other failure the remote's message is
surfaced when available and non-empty, else the operation-specific
fallback. -/
theorem notFound_normalization
    (find : String → Except AirtableError RemoteRecord)
    (updateRemote : UpdateRecordInput → Except AirtableError RemoteRecord)
    (destroyOne : String → Except AirtableError Unit)
    (id : String) (input : UpdateRecordInput) (e : AirtableError) :
    (find id = Except.error e → e.statusCode = some 404 →
      getById find id
        = { success := false, data := none,
            error := some "Record not found" }) ∧
    (updateRemote input = Except.error e → e.statusCode = some 404 →
      update updateRemote input
        = { success := false, data := none,
            error := some "Record not found" }) ∧
    (destroyOne id = Except.error e → e.statusCode = some 404 →
      delete destroyOne id
        = { success := false, message := none,
            error := some "Record not found" }) ∧
    (e.statusCode ≠ some 404 →
      (find id = Except.error e →
        (getById find id).error
          = some (jsOrStr e.message "Failed to fetch record")) ∧
      (updateRemote input = Except.error e →
        (update updateRemote input).error
          = some (jsOrStr e.message "Failed to update record")) ∧
      (destroyOne id = Except.error e →
        (delete destroyOne id).error
          = some (jsOrStr e.message "Failed to delete record"))) ∧
    (∀ m d, m ≠ "" → jsOrStr (some m) d = m) ∧
    (∀ d, jsOrStr none d = d ∧ jsOrStr (some "") d = d) := by
  refine ⟨?_, ?_, ?_, ?_, ?_, ?_⟩
  · intro hf h404; simp [getById, hf, h404]
  · intro hf h404; simp [update, hf, h404]
  · intro hf h404; simp [delete, hf, h404]
  · intro h404
    refine ⟨?_, ?_, ?_⟩
    · intro hf; simp [getById, hf, h404]
    · intro hf; simp [update, hf, h404]
    · intro hf; simp [delete, hf, h404]
  · intro m d hm; simp [jsOrStr, hm]
  · intro d; exact ⟨rfl, rfl⟩

theorem notFound_normalization_witness :
    getById
        (fun _ =>
          Except.error
            { statusCode := some 404,
              message := some "NOT_FOUND: could not find record" })
        "recXYZ"
      = { success := false, data := none,
          error := some "Record not found" } :=
  (notFound_normalization
      (fun _ =>
        Except.error
          { statusCode := some 404,
            message := some "NOT_FOUND: could not find record" })
      (fun _ =>
        Except.error
          { statusCode := some 404,
            message := some "NOT_FOUND: could not find record" })
      (fun _ =>
        Except.error
          { statusCode := some 404,
            message := some "NOT_FOUND: could not find record" })
      "recXYZ" { id := "recXYZ", fields := [] }
      { statusCode := some 404,
        message := some "NOT_FOUND: could not find record" }).1 rfl rfl

/-- C4: `exists` answers `{success:true, exists:true}` when the fetch
succeeds, `{success:true, exists:false}` when the remote reports 404 (a
negative check is a success, not an error), and a failure envelope with
the surfaced or fallback message for any other remote failure. -/
theorem exists_envelope
    (find : String → Except AirtableError RemoteRecord)
    (id : String) (r : RemoteRecord) (e : AirtableError) :
    (find id = Except.ok r →
      existsRecord find id
        = { success := true, exists? := some true, error := none }) ∧
    (find id = Except.error e → e.statusCode = some 404 →
      existsRecord find id
        = { success := true, exists? := some false, error := none }) ∧
    (find id = Except.error e → e.statusCode ≠ some 404 →
      existsRecord find id
        = { success := false, exists? := none,
            error := some (jsOrStr e.message
              "Failed to check record existence") }) := by
  refine ⟨?_, ?_, ?_⟩
  · intro hf; simp [existsRecord, hf]
  · intro hf h404; simp [existsRecord, hf, h404]
  · intro hf h404; simp [existsRecord, hf, h404]

theorem exists_envelope_witness :
    existsRecord
        (fun _ =>
          Except.error { statusCode := some 404, message := none })
        "recNone"
      = { success := true, exists? := some false, error := none } :=
  (exists_envelope
      (fun _ => Except.error { statusCode := some 404, message := none })
      "recNone" { id := "recNone", fields := [], rawCreatedTime := none }
      { statusCode := some 404, message := none }).2.1 rfl rfl

/-- C7: `search` is exactly `getAll` at the built predicate with the
same maxRecords and view (and no sort); when the built predicate is
empty it is exactly `getAll` with no filter set at all. -/
theorem search_delegates_getAll
    (select : SelectOptions → Except AirtableError (List (List RemoteRecord)))
    (filters : List (String × JSValue))
    (maxRecords : Option Nat) (view : Option String) :
    search select
        { filters := filters, maxRecords := maxRecords, view := view }
      = getAll select
        { filterByFormula := some (buildFilterFormula filters),
          maxRecords := maxRecords, view := view, sort := none } ∧
    (buildFilterFormula filters = "" →
      search select
          { filters := filters, maxRecords := maxRecords, view := view }
        = getAll select
          { filterByFormula := none, maxRecords := maxRecords,
            view := view, sort := none }) := by
  constructor
  · rfl
  · intro h
    show getAll select _ = getAll select _
    unfold getAll
    have hopts :
        getAllSelectOptions
            { filterByFormula := some (buildFilterFormula filters),
              maxRecords := maxRecords, view := view, sort := none }
          = getAllSelectOptions
            { filterByFormula := none, maxRecords := maxRecords,
              view := view, sort := none } := by
      simp [getAllSelectOptions, h, jsTruthyStr]
    rw [hopts]

theorem search_delegates_getAll_witness :
    search (fun _ => Except.ok ([] : List (List RemoteRecord)))
        { filters := [], maxRecords := none, view := none }
      = getAll (fun _ => Except.ok ([] : List (List RemoteRecord)))
        { filterByFormula := none, maxRecords := none, view := none,
          sort := none } :=
  (search_delegates_getAll
      (fun _ => Except.ok ([] : List (List RemoteRecord)))
      [] none none).2 rfl

theorem eachPageRun_true (pages : List (List RemoteRecord)) :
    eachPageRun (fun _ => true) pages = pages := by
  induction pages with
  | nil => rfl
  | cons p ps ih => simp [eachPageRun, ih]

theorem eachPageRun_false (pages : List (List RemoteRecord)) :
    eachPageRun (fun _ => false) pages = pages.take 1 := by
  cases pages <;> simp [eachPageRun]

/-- C5: a successful `getPaginated` call returns only the first
delivered page (the callback never requests another), and emits
`nextOffset` — the last fetched record's id — exactly when that page
holds exactly `pageSize` records, omitting it otherwise. -/
theorem getPaginated_nextOffset
    (select : SelectOptions → Except AirtableError (List (List RemoteRecord)))
    (pageSize : Nat) (offset : Option String)
    (pages : List (List RemoteRecord))
    (hsel : select (paginatedSelectOptions pageSize offset) = Except.ok pages)
    (hpos : 0 < pageSize) :
    (getPaginated select pageSize offset).success = true ∧
    (getPaginated select pageSize offset).data
      = some ((pages.take 1).flatten.map formatRecord) ∧
    (eachPageRun (fun _ => false) pages).length ≤ 1 ∧
    (pages = [] → (getPaginated select pageSize offset).nextOffset = none) ∧
    (∀ p ps, pages = p :: ps →
      (p.length = pageSize →
        ∃ lastRec, p.getLast? = some lastRec ∧
          (getPaginated select pageSize offset).nextOffset
            = some lastRec.id) ∧
      (p.length ≠ pageSize →
        (getPaginated select pageSize offset).nextOffset = none)) := by
  refine ⟨?_, ?_, ?_, ?_, ?_⟩
  · simp [getPaginated, hsel]
  · simp [getPaginated, hsel, eachPageRun_false]
  · rw [eachPageRun_false]
    cases pages <;> simp
  · intro h; subst h; simp [getPaginated, hsel, nextOffsetOf, eachPageRun]
  · intro p ps hp
    subst hp
    constructor
    · intro hfull
      have hne : p ≠ [] := by
        intro h0
        rw [h0] at hfull
        simp at hfull
        omega
      obtain ⟨lastRec, hlast⟩ :=
        Option.isSome_iff_exists.mp (List.getLast?_isSome.mpr hne)
      refine ⟨lastRec, hlast, ?_⟩
      simp [getPaginated, hsel, eachPageRun_false, nextOffsetOf, hfull,
        hlast]
    · intro hnot
      simp [getPaginated, hsel, eachPageRun_false, nextOffsetOf, hnot]

theorem getPaginated_nextOffset_witness :
    (getPaginated
        (fun _ => Except.ok ([] : List (List RemoteRecord))) 20 none).nextOffset
      = none :=
  (getPaginated_nextOffset
      (fun _ => Except.ok ([] : List (List RemoteRecord)))
      20 none [] rfl (by decide)).2.2.2.1 rfl

/-- C6: every façade operation, whatever the remote does, returns a
well-formed envelope: success carries a payload and no error, failure
carries an error and no payload. -/
theorem envelope_exclusive
    (createRemote : CreateRecordInput → Except AirtableError RemoteRecord)
    (select : SelectOptions → Except AirtableError (List (List RemoteRecord)))
    (find : String → Except AirtableError RemoteRecord)
    (updateRemote : UpdateRecordInput → Except AirtableError RemoteRecord)
    (destroyOne : String → Except AirtableError Unit)
    (bulkCreateRemote : List CreateRecordInput → Except AirtableError (List RemoteRecord))
    (bulkUpdateRemote : List UpdateRecordInput → Except AirtableError (List RemoteRecord))
    (bulkDestroy : List String → Except AirtableError Unit)
    (input : CreateRecordInput) (options : GetAllRecordsOptions)
    (id : String) (sOptions : SearchOptions) (uInput : UpdateRecordInput)
    (recs : List CreateRecordInput) (ups : List UpdateRecordInput)
    (ids : List String) (pageSize : Nat) (offset : Option String)
    (filterByFormula : Option String) :
    envelopeOk (create createRemote input).success
      (create createRemote input).data (create createRemote input).error ∧
    envelopeOk (getAll select options).success (getAll select options).data
      (getAll select options).error ∧
    envelopeOk (getById find id).success (getById find id).data
      (getById find id).error ∧
    envelopeOk (search select sOptions).success (search select sOptions).data
      (search select sOptions).error ∧
    envelopeOk (update updateRemote uInput).success
      (update updateRemote uInput).data (update updateRemote uInput).error ∧
    envelopeOk (delete destroyOne id).success (delete destroyOne id).message
      (delete destroyOne id).error ∧
    envelopeOk (bulkCreate bulkCreateRemote recs).1.success
      (bulkCreate bulkCreateRemote recs).1.data
      (bulkCreate bulkCreateRemote recs).1.error ∧
    envelopeOk (bulkUpdate bulkUpdateRemote ups).1.success
      (bulkUpdate bulkUpdateRemote ups).1.data
      (bulkUpdate bulkUpdateRemote ups).1.error ∧
    envelopeOk (bulkDelete bulkDestroy ids).1.success
      (bulkDelete bulkDestroy ids).1.deletedCount
      (bulkDelete bulkDestroy ids).1.error ∧
    envelopeOk (getPaginated select pageSize offset).success
      (getPaginated select pageSize offset).data
      (getPaginated select pageSize offset).error ∧
    envelopeOk (countRecords select filterByFormula).success
      (countRecords select filterByFormula).count
      (countRecords select filterByFormula).error ∧
    envelopeOk (existsRecord find id).success (existsRecord find id).exists?
      (existsRecord find id).error := by
  refine ⟨?_, ?_, ?_, ?_, ?_, ?_, ?_, ?_, ?_, ?_, ?_, ?_⟩
  · cases h : createRemote input <;> simp [create, envelopeOk, h]
  · cases h : select (getAllSelectOptions options) <;>
      simp [getAll, envelopeOk, h]
  · cases h : find id <;> simp [getById, envelopeOk, h]
  · cases h : select (getAllSelectOptions
        { filterByFormula := some (buildFilterFormula sOptions.filters),
          maxRecords := sOptions.maxRecords, view := sOptions.view,
          sort := none }) <;>
      simp [search, getAll, envelopeOk, h]
  · cases h : updateRemote uInput <;> simp [update, envelopeOk, h]
  · cases h : destroyOne id <;> simp [delete, envelopeOk, h]
  · cases h : (runBatches bulkCreateRemote (chunkBatches recs)).1 <;>
      simp [bulkCreate, envelopeOk, h]
  · cases h : (runBatches bulkUpdateRemote (chunkBatches ups)).1 <;>
      simp [bulkUpdate, envelopeOk, h]
  · cases h : (runDeleteBatches bulkDestroy (chunkBatches ids)).1 <;>
      simp [bulkDelete, envelopeOk, h]
  · cases h : select (paginatedSelectOptions pageSize offset) <;>
      simp [getPaginated, envelopeOk, h]
  · cases h : select (countSelectOptions filterByFormula) <;>
      simp [countRecords, envelopeOk, h]
  · cases h : find id with
    | ok r => simp [existsRecord, envelopeOk, h]
    | error e =>
        simp only [existsRecord, h]
        split <;> simp [envelopeOk]

theorem chunkBatches_cons_eq (l : List α) (h : l ≠ []) :
    chunkBatches l = l.take 10 :: chunkBatches (l.drop 10) := by
  cases l with
  | nil => exact absurd rfl h
  | cons x xs => rw [chunkBatches]

theorem chunkBatches_flatten (l : List α) : (chunkBatches l).flatten = l := by
  induction l using chunkBatches.induct with
  | case1 => simp [chunkBatches]
  | case2 x xs ih =>
      rw [chunkBatches]
      simp only [List.flatten_cons, ih, List.take_append_drop]

theorem chunkBatches_length_le (l : List α) :
    ∀ c ∈ chunkBatches l, c.length ≤ 10 := by
  induction l using chunkBatches.induct with
  | case1 => intro c hc; simp [chunkBatches] at hc
  | case2 x xs ih =>
      intro c hc
      rw [chunkBatches] at hc
      rcases List.mem_cons.mp hc with h | h
      · subst h; simp [List.length_take]
      · exact ih c h

theorem runBatches_ok (call : List β → Except AirtableError (List RemoteRecord))
    (g : List β → List RemoteRecord)
    (h : ∀ b, call b = Except.ok (g b)) (bs : List (List β)) :
    runBatches call bs
      = (Except.ok ((bs.map (fun b => (g b).map formatRecord)).flatten), bs) := by
  induction bs with
  | nil => rfl
  | cons b rest ih => simp [runBatches, h b, ih, Except.map]

theorem runDeleteBatches_ok {δ : Type}
    (destroy : List String → Except AirtableError δ)
    (g : List String → δ)
    (h : ∀ b, destroy b = Except.ok (g b)) (bs : List (List String)) :
    runDeleteBatches destroy bs
      = (Except.ok ((bs.map List.length).sum), bs) := by
  induction bs with
  | nil => rfl
  | cons b rest ih => simp [runDeleteBatches, h b, ih, Except.map]

theorem runBatches_trace_init (call : List β → Except AirtableError (List RemoteRecord))
    (bs : List (List β)) :
    ∃ rest, (runBatches call bs).2 ++ rest = bs := by
  induction bs with
  | nil => exact ⟨[], rfl⟩
  | cons b bs ih =>
      cases h : call b with
      | error e => exact ⟨bs, by simp [runBatches, h]⟩
      | ok records =>
          obtain ⟨rest, hrest⟩ := ih
          exact ⟨rest, by simp [runBatches, h, hrest]⟩

theorem runDeleteBatches_trace_init {δ : Type}
    (destroy : List String → Except AirtableError δ)
    (bs : List (List String)) :
    ∃ rest, (runDeleteBatches destroy bs).2 ++ rest = bs := by
  induction bs with
  | nil => exact ⟨[], rfl⟩
  | cons b bs ih =>
      cases h : destroy b with
      | error e => exact ⟨bs, by simp [runDeleteBatches, h]⟩
      | ok u =>
          obtain ⟨rest, hrest⟩ := ih
          exact ⟨rest, by simp [runDeleteBatches, h, hrest]⟩

theorem chunkBatches_map_length_25 (l : List α) (h : l.length = 25) :
    (chunkBatches l).map List.length = [10, 10, 5] := by
  have h1 : l ≠ [] := by
    intro e; rw [e] at h; simp at h
  rw [chunkBatches_cons_eq l h1]
  have hd1 : (l.drop 10).length = 15 := by simp [h]
  have h2 : l.drop 10 ≠ [] := by
    intro e; rw [e] at hd1; simp at hd1
  rw [chunkBatches_cons_eq _ h2]
  have hd2 : ((l.drop 10).drop 10).length = 5 := by simp [h]
  have h3 : (l.drop 10).drop 10 ≠ [] := by
    intro e; rw [e] at hd2; simp at hd2
  rw [chunkBatches_cons_eq _ h3]
  have hd3 : ((l.drop 10).drop 10).drop 10 = [] := by
    apply List.eq_nil_of_length_eq_zero
    simp [h]
  rw [hd3]
  simp [chunkBatches, List.length_take, h, hd1, hd2]

/-- C2: the bulk operations hand the input to the remote in consecutive
chunks of at most 10, one call per chunk in input order; on an
all-successful run `bulkCreate` over 25 records makes exactly 3 calls of
sizes 10, 10 and 5 and returns the 25 concatenated results with count
25. -/
theorem bulk_chunking
    (createRemote : List CreateRecordInput → Except AirtableError (List RemoteRecord))
    (updateRemote : List UpdateRecordInput → Except AirtableError (List RemoteRecord))
    (destroy : List String → Except AirtableError Unit)
    (recs : List CreateRecordInput) (ups : List UpdateRecordInput)
    (ids : List String)
    (g : List CreateRecordInput → List RemoteRecord)
    (gu : List UpdateRecordInput → List RemoteRecord)
    (hc : ∀ b, createRemote b = Except.ok (g b))
    (hu : ∀ b, updateRemote b = Except.ok (gu b))
    (hd : ∀ b, destroy b = Except.ok ())
    (hg : ∀ b, (g b).length = b.length)
    (h25 : recs.length = 25) :
    ((chunkBatches recs).flatten = recs ∧ (chunkBatches ups).flatten = ups ∧
      (chunkBatches ids).flatten = ids) ∧
    ((∀ c ∈ chunkBatches recs, c.length ≤ 10) ∧
      (∀ c ∈ chunkBatches ups, c.length ≤ 10) ∧
      (∀ c ∈ chunkBatches ids, c.length ≤ 10)) ∧
    (∀ anyCreate : List CreateRecordInput → Except AirtableError (List RemoteRecord),
      ∃ rest, (bulkCreate anyCreate recs).2 ++ rest = chunkBatches recs) ∧
    (∀ anyUpdate : List UpdateRecordInput → Except AirtableError (List RemoteRecord),
      ∃ rest, (bulkUpdate anyUpdate ups).2 ++ rest = chunkBatches ups) ∧
    (∀ anyDestroy : List String → Except AirtableError Unit,
      ∃ rest, (bulkDelete anyDestroy ids).2 ++ rest = chunkBatches ids) ∧
    (bulkCreate createRemote recs).2 = chunkBatches recs ∧
    (bulkUpdate updateRemote ups).2 = chunkBatches ups ∧
    (bulkDelete destroy ids).2 = chunkBatches ids ∧
    ((bulkCreate createRemote recs).2).map List.length = [10, 10, 5] ∧
    ((bulkCreate createRemote recs).2).length = 3 ∧
    (bulkCreate createRemote recs).1
      = { success := true,
          data := some
            (((chunkBatches recs).map
              (fun b => (g b).map formatRecord)).flatten),
          count := some 25, error := none } := by
  have hrunC := runBatches_ok createRemote g hc (chunkBatches recs)
  have hrunU := runBatches_ok updateRemote gu hu (chunkBatches ups)
  have hrunD := runDeleteBatches_ok destroy (fun _ => ()) hd (chunkBatches ids)
  have hlen :
      (((chunkBatches recs).map
        (fun b => (g b).map formatRecord)).flatten).length = 25 := by
    calc (((chunkBatches recs).map
            (fun b => (g b).map formatRecord)).flatten).length
        = ((chunkBatches recs).map List.length).sum := by
          simp [List.length_flatten, Function.comp_def, hg]
      _ = (chunkBatches recs).flatten.length := by
          simp [List.length_flatten]
      _ = 25 := by rw [chunkBatches_flatten, h25]
  have htrace : (bulkCreate createRemote recs).2 = chunkBatches recs := by
    simp [bulkCreate, hrunC]
  refine ⟨⟨chunkBatches_flatten recs, chunkBatches_flatten ups,
      chunkBatches_flatten ids⟩,
    ⟨chunkBatches_length_le recs, chunkBatches_length_le ups,
      chunkBatches_length_le ids⟩,
    ?_, ?_, ?_, htrace, ?_, ?_, ?_, ?_, ?_⟩
  · intro anyCreate
    obtain ⟨rest, hrest⟩ := runBatches_trace_init anyCreate (chunkBatches recs)
    refine ⟨rest, ?_⟩
    have h2 : (bulkCreate anyCreate recs).2
        = (runBatches anyCreate (chunkBatches recs)).2 := by
      cases h : (runBatches anyCreate (chunkBatches recs)).1 <;>
        simp [bulkCreate, h]
    rw [h2, hrest]
  · intro anyUpdate
    obtain ⟨rest, hrest⟩ := runBatches_trace_init anyUpdate (chunkBatches ups)
    refine ⟨rest, ?_⟩
    have h2 : (bulkUpdate anyUpdate ups).2
        = (runBatches anyUpdate (chunkBatches ups)).2 := by
      cases h : (runBatches anyUpdate (chunkBatches ups)).1 <;>
        simp [bulkUpdate, h]
    rw [h2, hrest]
  · intro anyDestroy
    obtain ⟨rest, hrest⟩ :=
      runDeleteBatches_trace_init anyDestroy (chunkBatches ids)
    refine ⟨rest, ?_⟩
    have h2 : (bulkDelete anyDestroy ids).2
        = (runDeleteBatches anyDestroy (chunkBatches ids)).2 := by
      cases h : (runDeleteBatches anyDestroy (chunkBatches ids)).1 <;>
        simp [bulkDelete, h]
    rw [h2, hrest]
  · simp [bulkUpdate, hrunU]
  · simp [bulkDelete, hrunD]
  · rw [htrace]; exact chunkBatches_map_length_25 recs h25
  · rw [htrace]
    have := congrArg List.length (chunkBatches_map_length_25 recs h25)
    simpa using this
  · simp [bulkCreate, hrunC, hlen]

theorem bulk_chunking_witness :
    ((bulkCreate
        (fun b =>
          Except.ok (b.map (fun c =>
            { id := "rec", fields := c.fields, rawCreatedTime := none })))
        (List.replicate 25
          ({ fields := [("k", JSValue.str "v")] } : CreateRecordInput))).2).map
        List.length
      = [10, 10, 5] :=
  (bulk_chunking
      (fun b =>
        Except.ok (b.map (fun c =>
          { id := "rec", fields := c.fields, rawCreatedTime := none })))
      (fun b =>
        Except.ok (b.map (fun u =>
          { id := u.id, fields := u.fields, rawCreatedTime := none })))
      (fun _ => Except.ok ())
      (List.replicate 25
        ({ fields := [("k", JSValue.str "v")] } : CreateRecordInput))
      [] []
      (fun b => b.map (fun c =>
        { id := "rec", fields := c.fields, rawCreatedTime := none }))
      (fun b => b.map (fun u =>
        { id := u.id, fields := u.fields, rawCreatedTime := none }))
      (fun _ => rfl) (fun _ => rfl) (fun _ => rfl)
      (fun b => by simp) (by simp)).2.2.2.2.2.2.2.2.1

/-- C10: on an all-successful `bulkDelete` the reported count is exactly
the length of the input id list — accumulated from input chunk sizes, no
matter what the remote destroy returns — and the message embeds that
count. -/
theorem bulkDelete_count {δ : Type}
    (destroy : List String → Except AirtableError δ)
    (g : List String → δ) (ids : List String)
    (h : ∀ b, destroy b = Except.ok (g b)) :
    (bulkDelete destroy ids).1
      = { success := true, deletedCount := some ids.length,
          message := some
            (toString ids.length ++ " records deleted successfully"),
          error := none } := by
  have hrun := runDeleteBatches_ok destroy g h (chunkBatches ids)
  have hsum : ((chunkBatches ids).map List.length).sum = ids.length := by
    rw [← List.length_flatten, chunkBatches_flatten]
  simp [bulkDelete, hrun, hsum]

theorem bulkDelete_count_witness :
    (bulkDelete (fun b => Except.ok b) ["r1", "r2", "r3"]).1
      = { success := true, deletedCount := some 3,
          message := some "3 records deleted successfully",
          error := none } := by
  have h := bulkDelete_count (fun b => Except.ok b) (fun b => b)
    ["r1", "r2", "r3"] (fun _ => rfl)
  rw [h]
  decide

end AirtableManager
